import Mathlib

/-!
Shallow embedding of the lz-ovault send scripts (TypeScript), which plan and
submit cross-chain vault settlements (source chain to hub vault to
destination chain) over a LayerZero-style messaging layer.

Modelling conventions:
* uint256 quantities in smallest units are `Nat`;
* `ethers.BigNumber` arithmetic is integer arithmetic; its `div` truncates
  toward zero, so signed computations use `Int.tdiv`;
* human-readable decimal amount strings are `DecAmount` (a numerator over a
  power of ten);
* the byte strings the scripts build (the empty string `0x`, ABI-encoded
  compose messages, encoded executor option lists) are free inductive
  values: the ABI encoding used is deterministic and injective on the
  encoded type, so a free constructor is a faithful model;
* each script reads the external world (decimals, vault previews, fee
  quotes, allowances) through RPC calls; a run of a script is modelled as a
  pure function of an environment record holding the response of every such
  call, with `Option` results for the calls whose failure the script
  handles or propagates.
-/

/-- A decimal literal with value `num / 10 ^ scale`; the configuration
string `"1.0"` is `⟨10, 1⟩`, `"0.000003"` is `⟨3, 6⟩`.  Models the
human-readable amount strings of the script configurations. -/
structure DecAmount where
  num : Nat
  scale : Nat
deriving DecidableEq

/-- Models `ethers.utils.parseUnits(s, decimals)`: scales a decimal literal
to smallest units, failing (ethers raises a fraction-exceeds-decimals
error) when the value has more fractional digits than `decimals`. -/
def parseUnits (d : DecAmount) (decimals : Nat) : Option Nat :=
  if d.num * 10 ^ decimals % 10 ^ d.scale = 0 then
    some (d.num * 10 ^ decimals / 10 ^ d.scale)
  else
    none

/-- Models `(parseFloat(amount) * (1 - slippageBps / 10000)).toString()`
from scripts 1, 7 and 8, idealized to exact rational arithmetic: the
product of `num / 10 ^ scale` with `(10000 - bps) / 10000`.  The script
computes this with IEEE doubles, whose shortest round-trip printing carries
at least as many fractional digits as the exact product whenever the exact
product is not exactly representable, so a parse failure under this exact
model also occurs in the script. -/
def floatTimesOneMinusBps (d : DecAmount) (bps : Nat) : DecAmount :=
  ⟨d.num * (10000 - bps), d.scale + 4⟩

/-- Addresses and bytes32 values are modelled as numerals.
`addressToBytes32` zero-pads a 20-byte address to 32 bytes, which is
injective, so the identity function is a faithful model. -/
def addressToBytes32 (a : Nat) : Nat := a

/-- Models the results of the `Options.newOptions()...toHex()` builders
used by the scripts (an encoded executor option list). -/
inductive Opts where
  | lzReceiveOption (gas value : Nat)
  | lzComposeOption (index gas value : Nat)
deriving DecidableEq

/-- Byte strings built by the scripts: the empty string `0x`, or the ABI
encoding produced by `defaultAbiCoder.encode` of a send-parameter tuple
`(uint32, bytes32, uint256, uint256, bytes, bytes, bytes)` together with a
`uint256` native value. -/
inductive Bytes where
  | empty : Bytes
  | composeEnc (dstEid toAddr amountLD minAmountLD : Nat) (extraOptions : Opts)
      (composeMsg oftCmd : Bytes) (value : Nat) : Bytes
deriving DecidableEq

/-- The `SendParam` tuple each script assembles per hop.  The source field
`to` is renamed `toAddr` (`to` is reserved in Lean). -/
structure SendParam where
  dstEid : Nat
  toAddr : Nat
  amountLD : Nat
  minAmountLD : Nat
  extraOptions : Opts
  composeMsg : Bytes
  oftCmd : Bytes
deriving DecidableEq

/-- Models `defaultAbiCoder.encode([sendParamTuple, uint256], [p, value])`,
the compose-payload encoding shared by scripts 1, 7, 8 and 11. -/
def encodeCompose (p : SendParam) (value : Nat) : Bytes :=
  .composeEnc p.dstEid p.toAddr p.amountLD p.minAmountLD p.extraOptions
    p.composeMsg p.oftCmd value

/-- Models `defaultAbiCoder.decode` of a compose payload; fails on the
empty byte string. -/
def decodeCompose : Bytes → Option (SendParam × Nat)
  | .empty => none
  | .composeEnc d t a m o c oc v => some (⟨d, t, a, m, o, c, oc⟩, v)

/-- From script 11 (`calculateMinAmount`), and inlined in scripts 1, 5, 7
and 8: `amount.mul(10000 - slippageBps).div(10000)` where `BigNumber.div`
truncates toward zero, hence `Int.tdiv`.  The function performs no
validation of its inputs. -/
def calculateMinAmount (amount slippageBps : Int) : Int :=
  Int.tdiv (amount * (10000 - slippageBps)) 10000

/-- The guarded approval block of scripts 1, 5 and 7: probe
`approvalRequired()`, read the current allowance, and submit
`approve(spender, amt)` only when the allowance is below `amt`; any failure
of the probe or of the allowance read is caught and the block is skipped.
Returns the allowance after the block (`none` when unknown because a read
failed) and the number of approval transactions submitted.
`approve(spender, a)` sets the allowance to `a` (standard token
semantics). -/
def erc20ApprovalBlock (approvalRequired : Option Bool) (allowance : Option Nat)
    (amt : Nat) : Option Nat × Nat :=
  match approvalRequired with
  | some true =>
    match allowance with
    | some a => if a < amt then (some amt, 1) else (some a, 0)
    | none => (none, 0)
  | _ => (allowance, 0)

/-! ## Script 1: asset deposit, any chain to any other chain
(`scripts/1-asset-deposit-cross-chain.ts`).  Scripts 5 and 10 reuse the
same approval, quoting and value-attachment blocks. -/

/-- The environment of one run of script 1: its configuration fields and
the response of every external call the script makes. -/
structure Env1 where
  srcEid : Nat
  dstEid : Nat
  hubEid : Nat
  composer : Nat
  recipient : Nat
  amount : DecAmount
  minAmountCfg : Option DecAmount
  lzComposeValueCfg : Option Nat
  lzComposeGas : Nat
  assetDecimals : Nat
  shareDecimals : Nat
  previewDeposit : Option Nat
  innerQuote : Option Nat
  outerQuote : Option Nat
  tokenAddr : Nat
  approvalRequired : Option Bool
  allowance : Option Nat

/-- The distinct failure exits of script 1 (each is a thrown error that
reaches the top-level catch). -/
inductive Err1 where
  | configError
  | amountParse
  | minAmountParse
  | firstHopMinParse
  | quoteFailure
deriving DecidableEq

/-- The single top-level transaction script 1 submits, together with the
quantities fixed at submission time. -/
structure Tx1 where
  sendParam : SendParam
  msgFeeNative : Nat
  txValue : Nat
  approvalTxs : Nat
  composeValue : Nat
deriving DecidableEq

/-- Script 1, minimum for the second hop: the explicit configured minimum
parsed at share decimals when present, else the previewed output reduced by
the hard-coded 50 basis points with BigNumber integer arithmetic. -/
def minAmountOut1 (env : Env1) (expected : Nat) : Option Nat :=
  match env.minAmountCfg with
  | some m => parseUnits m env.shareDecimals
  | none => some (expected * (10000 - 50) / 10000)

/-- Script 1, minimum for the first hop: the explicit configured minimum
parsed at asset decimals when present, else the floating-point pipeline
`parseUnits((parseFloat(amount) * (1 - 50 / 10000)).toString(),
assetDecimals)`. -/
def firstHopMin1 (env : Env1) : Option Nat :=
  match env.minAmountCfg with
  | some m => parseUnits m env.assetDecimals
  | none => parseUnits (floatTimesOneMinusBps env.amount 50) env.assetDecimals

/-- Script 1, native value for the second hop: the configured value if
set; else, when the destination is not the hub, the quoted fee or the
fixed default `25000000000000000` wei when the quote fails; forced to `0`
when the destination is the hub. -/
def lzComposeValue1 (env : Env1) : Nat :=
  let v :=
    if env.lzComposeValueCfg = none ∧ env.dstEid ≠ env.hubEid then
      match env.innerQuote with
      | some fee => fee
      | none => 25000000000000000
    else (env.lzComposeValueCfg).getD 0
  if env.dstEid = env.hubEid then 0 else v

/-- Script 1, the second-hop send parameter (hub to destination). -/
def secondHop1 (env : Env1) (expected minOut : Nat) : SendParam :=
  { dstEid := env.dstEid
    toAddr := addressToBytes32 env.recipient
    amountLD := expected
    minAmountLD := minOut
    extraOptions := .lzReceiveOption 100000 0
    composeMsg := .empty
    oftCmd := .empty }

/-- One run of script 1, in source order: configuration check, amount
parse, vault preview (with 1:1 fallback), second-hop minimum, second-hop
value quote (with fixed-default fallback), compose message encoding,
first-hop options and minimum, approval block, first-hop quote (fatal on
failure), and submission with the native-asset value rule. -/
def run1 (env : Env1) : Except Err1 Tx1 :=
  if env.srcEid = env.hubEid then .error .configError else
  match parseUnits env.amount env.assetDecimals with
  | none => .error .amountParse
  | some inputAmountUnits =>
    let expectedOutputAmount := env.previewDeposit.getD inputAmountUnits
    match minAmountOut1 env expectedOutputAmount with
    | none => .error .minAmountParse
    | some minAmountOut =>
      let lzComposeValue := lzComposeValue1 env
      let composeMsg :=
        encodeCompose (secondHop1 env expectedOutputAmount minAmountOut) lzComposeValue
      let extraOptions := Opts.lzComposeOption 0 env.lzComposeGas lzComposeValue
      match firstHopMin1 env with
      | none => .error .firstHopMinParse
      | some firstHopMinAmount =>
        let sendParam : SendParam :=
          { dstEid := env.hubEid
            toAddr := addressToBytes32 env.composer
            amountLD := inputAmountUnits
            minAmountLD := firstHopMinAmount
            extraOptions := extraOptions
            composeMsg := composeMsg
            oftCmd := .empty }
        let approvalTxs :=
          if env.tokenAddr = 0 then 0
          else (erc20ApprovalBlock env.approvalRequired env.allowance inputAmountUnits).2
        match env.outerQuote with
        | none => .error .quoteFailure
        | some nativeFee =>
          .ok { sendParam := sendParam
                msgFeeNative := nativeFee
                txValue := if env.tokenAddr = 0 then nativeFee + inputAmountUnits else nativeFee
                approvalTxs := approvalTxs
                composeValue := lzComposeValue }

/-- The amount carried by the hop embedded in the submitted compose
payload, when a run of script 1 succeeded. -/
def secondHopAmountOfRun1 (r : Except Err1 Tx1) : Option Nat :=
  match r with
  | .ok tx => (decodeCompose tx.sendParam.composeMsg).map fun p => p.1.amountLD
  | .error _ => none

/-- The native value attached for the second hop, when a run of script 1
succeeded. -/
def composeValueOfRun1 (r : Except Err1 Tx1) : Option Nat :=
  match r with
  | .ok tx => some tx.composeValue
  | .error _ => none

/-! ## Script 7: spoke to hub deposit (`unnamed/part_001`, whose header
names it `7-spoke-to-hub-deposit.ts`).  Script 8
(`scripts/8-spoke-to-hub-redemption.ts`) builds its hops identically, with
`previewRedeem` in place of `previewDeposit` and share decimals in place of
asset decimals for the sent amount. -/

/-- The environment of one run of script 7: the destination is the hub
itself, so there is no separate destination endpoint and no second-hop
quote. -/
structure Env7 where
  hubEid : Nat
  composer : Nat
  recipient : Nat
  amount : DecAmount
  minAmountCfg : Option DecAmount
  lzComposeGas : Nat
  assetDecimals : Nat
  shareDecimals : Nat
  previewDeposit : Option Nat
  outerQuote : Option Nat
  tokenAddr : Nat
  approvalRequired : Option Bool
  allowance : Option Nat

/-- The distinct failure exits of script 7. -/
inductive Err7 where
  | amountParse
  | minAmountParse
  | firstHopMinParse
  | quoteFailure
deriving DecidableEq

/-- The single top-level transaction script 7 submits. -/
structure Tx7 where
  sendParam : SendParam
  msgFeeNative : Nat
  txValue : Nat
  approvalTxs : Nat
deriving DecidableEq

/-- Script 7, minimum for the embedded hub-side delivery: explicit
configured minimum parsed at share decimals, else the previewed output
reduced by the hard-coded 50 basis points. -/
def minAmountOut7 (env : Env7) (expected : Nat) : Option Nat :=
  match env.minAmountCfg with
  | some m => parseUnits m env.shareDecimals
  | none => some (expected * (10000 - 50) / 10000)

/-- Script 7, minimum for the first hop: explicit configured minimum
parsed at asset decimals, else the floating-point pipeline on the
human-readable amount. -/
def firstHopMin7 (env : Env7) : Option Nat :=
  match env.minAmountCfg with
  | some m => parseUnits m env.assetDecimals
  | none => parseUnits (floatTimesOneMinusBps env.amount 50) env.assetDecimals

/-- Script 7, the embedded hub-side delivery instruction (destination is
the hub itself). -/
def secondHop7 (env : Env7) (expected minOut : Nat) : SendParam :=
  { dstEid := env.hubEid
    toAddr := addressToBytes32 env.recipient
    amountLD := expected
    minAmountLD := minOut
    extraOptions := .lzReceiveOption 100000 0
    composeMsg := .empty
    oftCmd := .empty }

/-- One run of script 7, in source order.  The second-hop native value is
the constant `0` (destination is the hub, no second cross-chain hop); the
outer quote failure is rethrown after logging, hence fatal. -/
def run7 (env : Env7) : Except Err7 Tx7 :=
  match parseUnits env.amount env.assetDecimals with
  | none => .error .amountParse
  | some inputAmountUnits =>
    let expectedOutputAmount := env.previewDeposit.getD inputAmountUnits
    match minAmountOut7 env expectedOutputAmount with
    | none => .error .minAmountParse
    | some minAmountOut =>
      let composeMsg :=
        encodeCompose (secondHop7 env expectedOutputAmount minAmountOut) 0
      let extraOptions := Opts.lzComposeOption 0 env.lzComposeGas 0
      match firstHopMin7 env with
      | none => .error .firstHopMinParse
      | some firstHopMinAmount =>
        let sendParam : SendParam :=
          { dstEid := env.hubEid
            toAddr := addressToBytes32 env.composer
            amountLD := inputAmountUnits
            minAmountLD := firstHopMinAmount
            extraOptions := extraOptions
            composeMsg := composeMsg
            oftCmd := .empty }
        let approvalTxs :=
          if env.tokenAddr = 0 then 0
          else (erc20ApprovalBlock env.approvalRequired env.allowance inputAmountUnits).2
        match env.outerQuote with
        | none => .error .quoteFailure
        | some nativeFee =>
          .ok { sendParam := sendParam
                msgFeeNative := nativeFee
                txValue := if env.tokenAddr = 0 then nativeFee + inputAmountUnits else nativeFee
                approvalTxs := approvalTxs }

/-! ## Script 11: atomic Base to Katana
(`scripts/11-base-to-katana-atomic.ts`).  Its chain endpoints, contract
addresses, compose gas and slippage are fixed configuration literals. -/

/-- Endpoint id of Base in the script 11 configuration. -/
def baseEid11 : Nat := 30184

/-- Endpoint id of Ethereum in the script 11 configuration. -/
def ethereumEid11 : Nat := 30101

/-- Endpoint id of Katana in the script 11 configuration. -/
def katanaEid11 : Nat := 30375

/-- The OVaultComposer address in the script 11 configuration. -/
def composerAddr11 : Nat := 0x8A35897fda9E024d2aC20a937193e099679eC477

/-- Compose gas in the script 11 configuration. -/
def composeGas11 : Nat := 1000000

/-- Slippage basis points in the script 11 configuration. -/
def slippageBps11 : Nat := 50

/-- Models `ethers.constants.MaxUint256`, the amount script 11 approves. -/
def maxUint256 : Nat := 2 ^ 256 - 1

/-- The environment of one run of script 11: the recipient, the
human-readable USDC amount (6 decimals) and the response of every external
call. -/
structure Env11 where
  recipient : Nat
  amount : DecAmount
  previewDeposit : Option Nat
  innerQuote : Option Nat
  outerQuote : Option Nat
  allowance : Nat

/-- The distinct failure exits of script 11.  Unlike script 1, the
second-hop quote is not guarded by a catch, so its failure is fatal. -/
inductive Err11 where
  | amountParse
  | previewFailure
  | innerQuoteFailure
  | outerQuoteFailure
deriving DecidableEq

/-- The single top-level transaction script 11 submits. -/
structure Tx11 where
  sendParam : SendParam
  txValue : Nat
  approvalTxs : Nat
  composeValue : Nat
deriving DecidableEq

/-- The approval block of script 11: read the allowance and, when it is
below the required amount, `approve(pool, MaxUint256)`.  Returns the
allowance after the block and the number of approval transactions
submitted. -/
def approvalBlock11 (allowance amt : Nat) : Nat × Nat :=
  if allowance < amt then (maxUint256, 1) else (allowance, 0)

/-- One run of script 11, in source order: amount parse at 6 decimals,
vault preview (fatal on failure), second-hop minimum via
`calculateMinAmount`, second-hop quote (fatal on failure) buffered by 20
percent, compose message and options carrying the buffered fee, first-hop
minimum via `calculateMinAmount`, approval block, first-hop quote (fatal
on failure), submission with the quoted first-hop fee attached. -/
def run11 (env : Env11) : Except Err11 Tx11 :=
  match parseUnits env.amount 6 with
  | none => .error .amountParse
  | some usdcAmount =>
    match env.previewDeposit with
    | none => .error .previewFailure
    | some expectedShares =>
      let minShares := (calculateMinAmount expectedShares slippageBps11).toNat
      let secondHop : SendParam :=
        { dstEid := katanaEid11
          toAddr := addressToBytes32 env.recipient
          amountLD := expectedShares
          minAmountLD := minShares
          extraOptions := .lzReceiveOption 100000 0
          composeMsg := .empty
          oftCmd := .empty }
      match env.innerQuote with
      | none => .error .innerQuoteFailure
      | some secondHopFee =>
        let secondHopFeeWithBuffer := secondHopFee * 120 / 100
        let composeMsg := encodeCompose secondHop secondHopFeeWithBuffer
        let extraOptions := Opts.lzComposeOption 0 composeGas11 secondHopFeeWithBuffer
        let minUSDC := (calculateMinAmount usdcAmount slippageBps11).toNat
        let sendParam : SendParam :=
          { dstEid := ethereumEid11
            toAddr := addressToBytes32 composerAddr11
            amountLD := usdcAmount
            minAmountLD := minUSDC
            extraOptions := extraOptions
            composeMsg := composeMsg
            oftCmd := .empty }
        let approvalTxs := (approvalBlock11 env.allowance usdcAmount).2
        match env.outerQuote with
        | none => .error .outerQuoteFailure
        | some firstHopFee =>
          .ok { sendParam := sendParam
                txValue := firstHopFee
                approvalTxs := approvalTxs
                composeValue := secondHopFeeWithBuffer }

/-! ## Concrete environments used by counterexamples and witnesses. -/

/-- A two-hop deposit environment for script 1: amount string `"1.0"` on a
6-decimals asset, previewed output 1000000 shares, both quotes
succeeding. -/
def envC1 : Env1 :=
  { srcEid := 40245
    dstEid := 40232
    hubEid := 40231
    composer := 1001
    recipient := 2002
    amount := ⟨10, 1⟩
    minAmountCfg := none
    lzComposeValueCfg := none
    lzComposeGas := 395000
    assetDecimals := 6
    shareDecimals := 6
    previewDeposit := some 1000000
    innerQuote := some 1000000
    outerQuote := some 500
    tokenAddr := 7
    approvalRequired := some false
    allowance := some 0 }

/-- Same as `envC1` with a failing second-hop quote. -/
def envC2a : Env1 := { envC1 with innerQuote := none }

/-- Same as `envC1` with a failing first-hop quote. -/
def envC2b : Env1 := { envC1 with outerQuote := none }

/-- Same as `envC1` with an explicit configured minimum `"0.9"`. -/
def envC3 : Env1 := { envC1 with minAmountCfg := some ⟨9, 1⟩ }

/-- Same as `envC1` with amount string `"0.000003"` (3 smallest units of a
6-decimals asset), a perfectly valid transfer amount. -/
def envC4 : Env1 := { envC1 with amount := ⟨3, 6⟩, previewDeposit := some 3 }

/-- A small two-hop environment for script 1 whose full output transaction
is written out in `txC5`. -/
def envC5 : Env1 :=
  { srcEid := 2
    dstEid := 3
    hubEid := 1
    composer := 11
    recipient := 22
    amount := ⟨1, 0⟩
    minAmountCfg := none
    lzComposeValueCfg := none
    lzComposeGas := 395000
    assetDecimals := 4
    shareDecimals := 4
    previewDeposit := some 10000
    innerQuote := some 9
    outerQuote := some 3
    tokenAddr := 7
    approvalRequired := some false
    allowance := some 0 }

/-- The transaction produced by `run1 envC5`. -/
def txC5 : Tx1 :=
  { sendParam :=
      { dstEid := 1
        toAddr := 11
        amountLD := 10000
        minAmountLD := 9950
        extraOptions := Opts.lzComposeOption 0 395000 9
        composeMsg := Bytes.composeEnc 3 22 10000 9950 (Opts.lzReceiveOption 100000 0)
          Bytes.empty Bytes.empty 9
        oftCmd := Bytes.empty }
    msgFeeNative := 3
    txValue := 3
    approvalTxs := 0
    composeValue := 9 }

/-- Same as `envC5` with a failed `approvalRequired()` probe. -/
def envC10 : Env1 := { envC5 with approvalRequired := none }

/-- A small script 7 environment matching `envC5`. -/
def env7W : Env7 :=
  { hubEid := 1
    composer := 11
    recipient := 22
    amount := ⟨1, 0⟩
    minAmountCfg := none
    lzComposeGas := 175000
    assetDecimals := 4
    shareDecimals := 4
    previewDeposit := some 10000
    outerQuote := some 3
    tokenAddr := 7
    approvalRequired := some false
    allowance := some 0 }

/-- The transaction produced by `run7 env7W`. -/
def tx7W : Tx7 :=
  { sendParam :=
      { dstEid := 1
        toAddr := 11
        amountLD := 10000
        minAmountLD := 9950
        extraOptions := Opts.lzComposeOption 0 175000 0
        composeMsg := Bytes.composeEnc 1 22 10000 9950 (Opts.lzReceiveOption 100000 0)
          Bytes.empty Bytes.empty 0
        oftCmd := Bytes.empty }
    msgFeeNative := 3
    txValue := 3
    approvalTxs := 0 }

/-- Same as `env7W` but with a native underlying asset (`token()` returns
the zero address). -/
def env7N : Env7 := { env7W with tokenAddr := 0 }

/-- A script 11 environment: amount string `"0.2"` (200000 USDC units),
previewed 150000 shares, second-hop fee 1000 wei, first-hop fee 777 wei. -/
def env11W : Env11 :=
  { recipient := 22
    amount := ⟨2, 1⟩
    previewDeposit := some 150000
    innerQuote := some 1000
    outerQuote := some 777
    allowance := 0 }

/-! ## Helper lemmas. -/

theorem decode_encodeCompose (p : SendParam) (v : Nat) :
    decodeCompose (encodeCompose p v) = some (p, v) := rfl

theorem tdiv_ofNat_ofNat (a b : Nat) :
    Int.tdiv (a : Int) (b : Int) = ((a / b : Nat) : Int) :=
  (Int.ofNat_tdiv a b).symm

theorem calculateMinAmount_ofNat (e b : Nat) (hb : b ≤ 10000) :
    calculateMinAmount (e : Int) (b : Int) = ((e * (10000 - b) / 10000 : Nat) : Int) := by
  unfold calculateMinAmount
  have hcast : (e : Int) * (10000 - (b : Int)) = ((e * (10000 - b) : Nat) : Int) := by
    push_cast [hb]
    ring
  rw [hcast]
  exact_mod_cast tdiv_ofNat_ofNat (e * (10000 - b)) 10000

theorem run1_spec (env : Env1) (u m fhm q : Nat)
    (hsrc : ¬ env.srcEid = env.hubEid)
    (hu : parseUnits env.amount env.assetDecimals = some u)
    (hm : minAmountOut1 env (env.previewDeposit.getD u) = some m)
    (hf : firstHopMin1 env = some fhm)
    (hq : env.outerQuote = some q) :
    run1 env = Except.ok
      { sendParam :=
          { dstEid := env.hubEid
            toAddr := addressToBytes32 env.composer
            amountLD := u
            minAmountLD := fhm
            extraOptions := Opts.lzComposeOption 0 env.lzComposeGas (lzComposeValue1 env)
            composeMsg := encodeCompose (secondHop1 env (env.previewDeposit.getD u) m)
              (lzComposeValue1 env)
            oftCmd := Bytes.empty }
        msgFeeNative := q
        txValue := if env.tokenAddr = 0 then q + u else q
        approvalTxs := if env.tokenAddr = 0 then 0
          else (erc20ApprovalBlock env.approvalRequired env.allowance u).2
        composeValue := lzComposeValue1 env } := by
  simp only [run1, hu, hm, hf, hq, if_neg hsrc]

theorem run1_ok_inv (env : Env1) (tx : Tx1) (h : run1 env = Except.ok tx) :
    ∃ u m fhm q,
      parseUnits env.amount env.assetDecimals = some u ∧
      minAmountOut1 env (env.previewDeposit.getD u) = some m ∧
      firstHopMin1 env = some fhm ∧
      env.outerQuote = some q ∧
      ¬ env.srcEid = env.hubEid ∧
      tx =
        { sendParam :=
            { dstEid := env.hubEid
              toAddr := addressToBytes32 env.composer
              amountLD := u
              minAmountLD := fhm
              extraOptions := Opts.lzComposeOption 0 env.lzComposeGas (lzComposeValue1 env)
              composeMsg := encodeCompose (secondHop1 env (env.previewDeposit.getD u) m)
                (lzComposeValue1 env)
              oftCmd := Bytes.empty }
          msgFeeNative := q
          txValue := if env.tokenAddr = 0 then q + u else q
          approvalTxs := if env.tokenAddr = 0 then 0
            else (erc20ApprovalBlock env.approvalRequired env.allowance u).2
          composeValue := lzComposeValue1 env } := by
  by_cases hsrc : env.srcEid = env.hubEid
  · rw [run1, if_pos hsrc] at h
    exact absurd h (by simp)
  rw [run1, if_neg hsrc] at h
  cases hu : parseUnits env.amount env.assetDecimals with
  | none => rw [hu] at h; exact absurd h (by simp)
  | some u =>
    rw [hu] at h
    cases hm : minAmountOut1 env (env.previewDeposit.getD u) with
    | none => simp only [hm] at h; exact absurd h (by simp)
    | some m =>
      simp only [hm] at h
      cases hf : firstHopMin1 env with
      | none => simp only [hf] at h; exact absurd h (by simp)
      | some fhm =>
        simp only [hf] at h
        cases hq : env.outerQuote with
        | none => simp only [hq] at h; exact absurd h (by simp)
        | some q =>
          simp only [hq] at h
          exact ⟨u, m, fhm, q, rfl, hm, rfl, rfl, hsrc, (Except.ok.inj h).symm⟩

theorem run7_spec (env : Env7) (u m fhm q : Nat)
    (hu : parseUnits env.amount env.assetDecimals = some u)
    (hm : minAmountOut7 env (env.previewDeposit.getD u) = some m)
    (hf : firstHopMin7 env = some fhm)
    (hq : env.outerQuote = some q) :
    run7 env = Except.ok
      { sendParam :=
          { dstEid := env.hubEid
            toAddr := addressToBytes32 env.composer
            amountLD := u
            minAmountLD := fhm
            extraOptions := Opts.lzComposeOption 0 env.lzComposeGas 0
            composeMsg := encodeCompose (secondHop7 env (env.previewDeposit.getD u) m) 0
            oftCmd := Bytes.empty }
        msgFeeNative := q
        txValue := if env.tokenAddr = 0 then q + u else q
        approvalTxs := if env.tokenAddr = 0 then 0
          else (erc20ApprovalBlock env.approvalRequired env.allowance u).2 } := by
  simp only [run7, hu, hm, hf, hq]

theorem run7_ok_inv (env : Env7) (tx : Tx7) (h : run7 env = Except.ok tx) :
    ∃ u m fhm q,
      parseUnits env.amount env.assetDecimals = some u ∧
      minAmountOut7 env (env.previewDeposit.getD u) = some m ∧
      firstHopMin7 env = some fhm ∧
      env.outerQuote = some q ∧
      tx =
        { sendParam :=
            { dstEid := env.hubEid
              toAddr := addressToBytes32 env.composer
              amountLD := u
              minAmountLD := fhm
              extraOptions := Opts.lzComposeOption 0 env.lzComposeGas 0
              composeMsg := encodeCompose (secondHop7 env (env.previewDeposit.getD u) m) 0
              oftCmd := Bytes.empty }
          msgFeeNative := q
          txValue := if env.tokenAddr = 0 then q + u else q
          approvalTxs := if env.tokenAddr = 0 then 0
            else (erc20ApprovalBlock env.approvalRequired env.allowance u).2 } := by
  rw [run7] at h
  cases hu : parseUnits env.amount env.assetDecimals with
  | none => rw [hu] at h; exact absurd h (by simp)
  | some u =>
    rw [hu] at h
    cases hm : minAmountOut7 env (env.previewDeposit.getD u) with
    | none => simp only [hm] at h; exact absurd h (by simp)
    | some m =>
      simp only [hm] at h
      cases hf : firstHopMin7 env with
      | none => simp only [hf] at h; exact absurd h (by simp)
      | some fhm =>
        simp only [hf] at h
        cases hq : env.outerQuote with
        | none => simp only [hq] at h; exact absurd h (by simp)
        | some q =>
          simp only [hq] at h
          exact ⟨u, m, fhm, q, rfl, hm, rfl, rfl, (Except.ok.inj h).symm⟩

theorem run11_spec (env : Env11) (u p f q : Nat)
    (hu : parseUnits env.amount 6 = some u)
    (hp : env.previewDeposit = some p)
    (hf : env.innerQuote = some f)
    (hq : env.outerQuote = some q) :
    run11 env = Except.ok
      { sendParam :=
          { dstEid := ethereumEid11
            toAddr := addressToBytes32 composerAddr11
            amountLD := u
            minAmountLD := (calculateMinAmount u slippageBps11).toNat
            extraOptions := Opts.lzComposeOption 0 composeGas11 (f * 120 / 100)
            composeMsg := encodeCompose
              { dstEid := katanaEid11
                toAddr := addressToBytes32 env.recipient
                amountLD := p
                minAmountLD := (calculateMinAmount p slippageBps11).toNat
                extraOptions := Opts.lzReceiveOption 100000 0
                composeMsg := Bytes.empty
                oftCmd := Bytes.empty } (f * 120 / 100)
            oftCmd := Bytes.empty }
        txValue := q
        approvalTxs := (approvalBlock11 env.allowance u).2
        composeValue := f * 120 / 100 } := by
  simp only [run11, hu, hp, hf, hq]

/-! ## Claim C1. -/

/-- Claim C1, counterexample.  The claim asserts that for a two-hop deposit
the embedded second hop has an amount equal to the previewDeposit output
reduced by the slippage basis points.  At `envC1` the preview is 1000000
and the embedded amount is the unreduced 1000000, not the reduced
995000. -/
theorem two_hop_secondHop_amount_unreduced :
    (secondHopAmountOfRun1 (run1 envC1) = some 1000000) ∧
    (envC1.previewDeposit = some 1000000) ∧
    (1000000 * (10000 - 50) / 10000 = 995000) ∧
    ((1000000 : Nat) ≠ 995000) :=
  ⟨rfl, rfl, by decide, by decide⟩

/-- Claim C1, amended.  When source and destination both differ from the
hub and a deposit conversion is previewed, script 1 builds exactly one
top-level transaction whose first hop is addressed to the hub composer and
whose compose payload decodes to a second hop toward the requested
destination, carrying the previewed output as its amount and the previewed
output reduced by the same 50 slippage basis points as its
minimum-acceptable amount. -/
theorem two_hop_deposit_compose_structure :
    ∀ (env : Env1) (u p fhm q : Nat),
      ¬ env.srcEid = env.hubEid →
      ¬ env.dstEid = env.hubEid →
      env.previewDeposit = some p →
      env.minAmountCfg = none →
      parseUnits env.amount env.assetDecimals = some u →
      firstHopMin1 env = some fhm →
      env.outerQuote = some q →
      ∃ tx, run1 env = Except.ok tx ∧
        tx.sendParam.dstEid = env.hubEid ∧
        tx.sendParam.toAddr = addressToBytes32 env.composer ∧
        ∃ h2 v, decodeCompose tx.sendParam.composeMsg = some (h2, v) ∧
          h2.dstEid = env.dstEid ∧
          h2.amountLD = p ∧
          h2.minAmountLD = p * (10000 - 50) / 10000 := by
  intro env u p fhm q hsrc hdst hp hcfg hu hf hq
  have hgd : env.previewDeposit.getD u = p := by rw [hp]; rfl
  have hm : minAmountOut1 env (env.previewDeposit.getD u) =
      some (env.previewDeposit.getD u * (10000 - 50) / 10000) := by
    simp [minAmountOut1, hcfg]
  refine ⟨_, run1_spec env u (env.previewDeposit.getD u * (10000 - 50) / 10000) fhm q
    hsrc hu hm hf hq, rfl, rfl, ?_⟩
  refine ⟨secondHop1 env (env.previewDeposit.getD u)
    (env.previewDeposit.getD u * (10000 - 50) / 10000), lzComposeValue1 env,
    decode_encodeCompose _ _, rfl, ?_, ?_⟩
  · simp [secondHop1, hgd]
  · simp [secondHop1, hgd]

/-- Claim C1, witness at `envC1`. -/
theorem two_hop_deposit_compose_structure_witness :
    ∃ tx, run1 envC1 = Except.ok tx ∧
      tx.sendParam.dstEid = envC1.hubEid ∧
      tx.sendParam.toAddr = addressToBytes32 envC1.composer ∧
      ∃ h2 v, decodeCompose tx.sendParam.composeMsg = some (h2, v) ∧
        h2.dstEid = envC1.dstEid ∧
        h2.amountLD = 1000000 ∧
        h2.minAmountLD = 1000000 * (10000 - 50) / 10000 :=
  two_hop_deposit_compose_structure envC1 1000000 1000000 995000 500
    (by decide) (by decide) rfl rfl rfl rfl rfl

/-! ## Claim C2. -/

/-- Claim C2.  In script 1, a failed second-hop quote is absorbed: the
second-hop funding value falls back to the fixed default 25000000000000000
wei and the run still reaches submission; a failed first-hop quote is
fatal with no fallback. -/
theorem inner_quote_fallback_outer_fatal :
    (∀ (env : Env1) (u fhm q : Nat),
      ¬ env.srcEid = env.hubEid →
      ¬ env.dstEid = env.hubEid →
      env.lzComposeValueCfg = none →
      env.innerQuote = none →
      env.minAmountCfg = none →
      parseUnits env.amount env.assetDecimals = some u →
      firstHopMin1 env = some fhm →
      env.outerQuote = some q →
      ∃ tx, run1 env = Except.ok tx ∧ tx.composeValue = 25000000000000000) ∧
    (∀ (env : Env1) (u fhm : Nat),
      ¬ env.srcEid = env.hubEid →
      env.minAmountCfg = none →
      parseUnits env.amount env.assetDecimals = some u →
      firstHopMin1 env = some fhm →
      env.outerQuote = none →
      run1 env = Except.error Err1.quoteFailure) := by
  constructor
  · intro env u fhm q hsrc hdst hcfgv hinner hcfg hu hf hq
    have hm : minAmountOut1 env (env.previewDeposit.getD u) =
        some (env.previewDeposit.getD u * (10000 - 50) / 10000) := by
      simp [minAmountOut1, hcfg]
    refine ⟨_, run1_spec env u _ fhm q hsrc hu hm hf hq, ?_⟩
    simp [lzComposeValue1, hcfgv, hinner, hdst]
  · intro env u fhm hsrc hcfg hu hf hq
    have hm : minAmountOut1 env (env.previewDeposit.getD u) =
        some (env.previewDeposit.getD u * (10000 - 50) / 10000) := by
      simp [minAmountOut1, hcfg]
    simp only [run1, hu, hm, hf, hq, if_neg hsrc]

/-- Claim C2, witness: at `envC2a` (second-hop quote fails) the run
succeeds with the fixed default funding value; at `envC2b` (first-hop
quote fails) the run aborts with the quote failure. -/
theorem inner_quote_fallback_outer_fatal_witness :
    (∃ tx, run1 envC2a = Except.ok tx ∧ tx.composeValue = 25000000000000000) ∧
    (run1 envC2b = Except.error Err1.quoteFailure) :=
  ⟨inner_quote_fallback_outer_fatal.1 envC2a 1000000 995000 500
      (by decide) (by decide) rfl rfl rfl rfl rfl rfl,
   inner_quote_fallback_outer_fatal.2 envC2b 1000000 995000
      (by decide) rfl rfl rfl rfl⟩

/-! ## Claim C3. -/

/-- Claim C3.  First, `calculateMinAmount` computes the floor of
`e * (10000 - b) / 10000` for every expected amount `e ≥ 0` and basis
points `b ≤ 10000`.  Second, the default slippage in script 1 is 50 basis
points: with no explicit minimum the embedded hop minimum is the previewed
output reduced by 50 bps.  Third, an explicit configured minimum is used
verbatim (parsed to units) for both hops and the formula is bypassed. -/
theorem slippage_floor_default50_explicit_min :
    (∀ (e b : Nat), b ≤ 10000 →
      calculateMinAmount (e : Int) (b : Int) = ((e * (10000 - b) / 10000 : Nat) : Int)) ∧
    (∀ (env : Env1) (u p fhm q : Nat),
      ¬ env.srcEid = env.hubEid →
      env.previewDeposit = some p →
      env.minAmountCfg = none →
      parseUnits env.amount env.assetDecimals = some u →
      firstHopMin1 env = some fhm →
      env.outerQuote = some q →
      ∃ tx h2 v, run1 env = Except.ok tx ∧
        decodeCompose tx.sendParam.composeMsg = some (h2, v) ∧
        h2.minAmountLD = p * (10000 - 50) / 10000) ∧
    (∀ (env : Env1) (mdec : DecAmount) (u mu ma q : Nat),
      ¬ env.srcEid = env.hubEid →
      env.minAmountCfg = some mdec →
      parseUnits mdec env.shareDecimals = some mu →
      parseUnits mdec env.assetDecimals = some ma →
      parseUnits env.amount env.assetDecimals = some u →
      env.outerQuote = some q →
      ∃ tx h2 v, run1 env = Except.ok tx ∧
        tx.sendParam.minAmountLD = ma ∧
        decodeCompose tx.sendParam.composeMsg = some (h2, v) ∧
        h2.minAmountLD = mu) := by
  refine ⟨calculateMinAmount_ofNat, ?_, ?_⟩
  · intro env u p fhm q hsrc hp hcfg hu hf hq
    have hgd : env.previewDeposit.getD u = p := by rw [hp]; rfl
    have hm : minAmountOut1 env (env.previewDeposit.getD u) =
        some (env.previewDeposit.getD u * (10000 - 50) / 10000) := by
      simp [minAmountOut1, hcfg]
    refine ⟨_, secondHop1 env (env.previewDeposit.getD u)
      (env.previewDeposit.getD u * (10000 - 50) / 10000), lzComposeValue1 env,
      run1_spec env u _ fhm q hsrc hu hm hf hq, decode_encodeCompose _ _, ?_⟩
    simp [secondHop1, hgd]
  · intro env mdec u mu ma q hsrc hcfg hmu hma hu hq
    have hm : minAmountOut1 env (env.previewDeposit.getD u) = some mu := by
      simp [minAmountOut1, hcfg, hmu]
    have hf : firstHopMin1 env = some ma := by
      simp [firstHopMin1, hcfg, hma]
    exact ⟨_, secondHop1 env (env.previewDeposit.getD u) mu, lzComposeValue1 env,
      run1_spec env u mu ma q hsrc hu hm hf hq, rfl, decode_encodeCompose _ _, rfl⟩

/-- Claim C3, witness: the floor formula at 1000000 and 50 bps, the
default-50 path at `envC1`, and the explicit-minimum path at `envC3`
(configured minimum string `"0.9"`, 900000 units). -/
theorem slippage_floor_default50_explicit_min_witness :
    (calculateMinAmount ((1000000 : Nat) : Int) ((50 : Nat) : Int) =
      ((1000000 * (10000 - 50) / 10000 : Nat) : Int)) ∧
    (∃ tx h2 v, run1 envC1 = Except.ok tx ∧
      decodeCompose tx.sendParam.composeMsg = some (h2, v) ∧
      h2.minAmountLD = 1000000 * (10000 - 50) / 10000) ∧
    (∃ tx h2 v, run1 envC3 = Except.ok tx ∧
      tx.sendParam.minAmountLD = 900000 ∧
      decodeCompose tx.sendParam.composeMsg = some (h2, v) ∧
      h2.minAmountLD = 900000) :=
  ⟨slippage_floor_default50_explicit_min.1 1000000 50 (by decide),
   slippage_floor_default50_explicit_min.2.1 envC1 1000000 1000000 995000 500
      (by decide) rfl rfl rfl rfl rfl,
   slippage_floor_default50_explicit_min.2.2 envC3 ⟨9, 1⟩ 1000000 900000 900000 500
      (by decide) rfl rfl rfl rfl rfl⟩

/-! ## Claim C4. -/

/-- Claim C4, failing input.  The claim (and the data model of the spec)
requires the first-hop minimum to be computed on integers in smallest
units, with decimals used only for display.  Script 1 instead computes it
by floating-point arithmetic on the human-readable string: at the valid
amount `"0.000003"` of a 6-decimals asset (3 smallest units), the product
`0.000003 * 0.995` has nine fractional digits, `parseUnits` raises a
fraction-exceeds-decimals error and the run aborts, while integer
arithmetic in smallest units yields `calculateMinAmount 3 50 = 2`. -/
theorem firstHopMin_float_pipeline_breaks_integer_claim :
    (run1 envC4 = Except.error Err1.firstHopMinParse) ∧
    (parseUnits envC4.amount envC4.assetDecimals = some 3) ∧
    (calculateMinAmount 3 50 = 2) :=
  ⟨rfl, rfl, by decide⟩

/-! ## Claim C5. -/

/-- Claim C5.  In every transaction built by script 1 or script 7, a
non-empty compose payload occurs only on the hop addressed to the hub
composer and always embeds a downstream hop instruction; the embedded
(terminal) hop carries the canonical empty byte string `0x` as its compose
payload. -/
theorem compose_payload_executor_invariant :
    (∀ (env : Env1) (tx : Tx1), run1 env = Except.ok tx →
      (tx.sendParam.composeMsg ≠ Bytes.empty →
        tx.sendParam.toAddr = addressToBytes32 env.composer ∧
        (decodeCompose tx.sendParam.composeMsg).isSome) ∧
      (∀ h2 v, decodeCompose tx.sendParam.composeMsg = some (h2, v) →
        h2.composeMsg = Bytes.empty ∧ decodeCompose h2.composeMsg = none)) ∧
    (∀ (env : Env7) (tx : Tx7), run7 env = Except.ok tx →
      (tx.sendParam.composeMsg ≠ Bytes.empty →
        tx.sendParam.toAddr = addressToBytes32 env.composer ∧
        (decodeCompose tx.sendParam.composeMsg).isSome) ∧
      (∀ h2 v, decodeCompose tx.sendParam.composeMsg = some (h2, v) →
        h2.composeMsg = Bytes.empty ∧ decodeCompose h2.composeMsg = none)) := by
  constructor
  · intro env tx h
    obtain ⟨u, m, fhm, q, hu, hm, hf, hq, hsrc, rfl⟩ := run1_ok_inv env tx h
    refine ⟨fun _ => ⟨rfl, by rw [decode_encodeCompose]; rfl⟩, ?_⟩
    intro h2 v hdec
    rw [decode_encodeCompose] at hdec
    have hpair := Option.some.inj hdec
    have hh2 : h2 = secondHop1 env (env.previewDeposit.getD u) m :=
      (congrArg Prod.fst hpair).symm
    subst hh2
    exact ⟨rfl, rfl⟩
  · intro env tx h
    obtain ⟨u, m, fhm, q, hu, hm, hf, hq, rfl⟩ := run7_ok_inv env tx h
    refine ⟨fun _ => ⟨rfl, by rw [decode_encodeCompose]; rfl⟩, ?_⟩
    intro h2 v hdec
    rw [decode_encodeCompose] at hdec
    have hpair := Option.some.inj hdec
    have hh2 : h2 = secondHop7 env (env.previewDeposit.getD u) m :=
      (congrArg Prod.fst hpair).symm
    subst hh2
    exact ⟨rfl, rfl⟩

/-- Claim C5, witness at the concrete transactions `txC5` and `tx7W`. -/
theorem compose_payload_executor_invariant_witness :
    (txC5.sendParam.toAddr = addressToBytes32 envC5.composer ∧
      (decodeCompose txC5.sendParam.composeMsg).isSome) ∧
    (tx7W.sendParam.toAddr = addressToBytes32 env7W.composer ∧
      (decodeCompose tx7W.sendParam.composeMsg).isSome) :=
  ⟨(compose_payload_executor_invariant.1 envC5 txC5 rfl).1 (by decide),
   (compose_payload_executor_invariant.2 env7W tx7W rfl).1 (by decide)⟩

/-! ## Claim C6. -/

/-- Claim C6, counterexample.  The claim asserts that whenever a
second-hop quote succeeds the attached inner value is the quoted fee plus
a 20 percent buffer.  In script 1 at `envC1` the quote succeeds with
1000000 and the attached value is exactly 1000000, not 1200000. -/
theorem script1_inner_value_unbuffered :
    (composeValueOfRun1 (run1 envC1) = some 1000000) ∧
    (envC1.innerQuote = some 1000000) ∧
    (1000000 * 120 / 100 = 1200000) ∧
    ((1000000 : Nat) ≠ 1200000) :=
  ⟨rfl, rfl, by decide, by decide⟩

/-- Claim C6, amended.  Only script 11 applies the 20 percent buffer: when
its second-hop quote succeeds with fee `f` the attached inner value is
`f * 120 / 100` (integer division).  Script 1 attaches the quoted fee
verbatim, with no buffer. -/
theorem inner_fee_buffer_script11_only :
    (∀ (env : Env11) (u p f q : Nat),
      parseUnits env.amount 6 = some u →
      env.previewDeposit = some p →
      env.innerQuote = some f →
      env.outerQuote = some q →
      ∃ tx, run11 env = Except.ok tx ∧ tx.composeValue = f * 120 / 100) ∧
    (∀ (env : Env1) (u fhm f q : Nat),
      ¬ env.srcEid = env.hubEid →
      ¬ env.dstEid = env.hubEid →
      env.lzComposeValueCfg = none →
      env.innerQuote = some f →
      env.minAmountCfg = none →
      parseUnits env.amount env.assetDecimals = some u →
      firstHopMin1 env = some fhm →
      env.outerQuote = some q →
      ∃ tx, run1 env = Except.ok tx ∧ tx.composeValue = f) := by
  constructor
  · intro env u p f q hu hp hf hq
    exact ⟨_, run11_spec env u p f q hu hp hf hq, rfl⟩
  · intro env u fhm f q hsrc hdst hcfgv hinner hcfg hu hf hq
    have hm : minAmountOut1 env (env.previewDeposit.getD u) =
        some (env.previewDeposit.getD u * (10000 - 50) / 10000) := by
      simp [minAmountOut1, hcfg]
    refine ⟨_, run1_spec env u _ fhm q hsrc hu hm hf hq, ?_⟩
    simp [lzComposeValue1, hcfgv, hinner, hdst]

/-- Claim C6, witness: at `env11W` the inner value is the buffered
1000 * 120 / 100; at `envC1` the inner value is the raw quote 1000000. -/
theorem inner_fee_buffer_script11_only_witness :
    (∃ tx, run11 env11W = Except.ok tx ∧ tx.composeValue = 1000 * 120 / 100) ∧
    (∃ tx, run1 envC1 = Except.ok tx ∧ tx.composeValue = 1000000) :=
  ⟨inner_fee_buffer_script11_only.1 env11W 200000 150000 1000 777 rfl rfl rfl rfl,
   inner_fee_buffer_script11_only.2 envC1 1000000 995000 1000000 500
      (by decide) (by decide) rfl rfl rfl rfl rfl rfl⟩

/-! ## Claim C7. -/

/-- Claim C7, counterexample.  The claim asserts that basis-point inputs
below 0 or above 10000 are rejected as a configuration error.  The
slippage computation of the scripts contains no validation at all: it is a
total function that, at 10001 basis points, returns the ordinary value
-100 instead of raising any error, and at -100 basis points returns
1010000, above the expected amount. -/
theorem calculateMinAmount_total_out_of_range :
    (calculateMinAmount 1000000 10001 = -100) ∧
    (calculateMinAmount 1000000 (-100) = 1010000) :=
  ⟨by decide, by decide⟩

/-- Claim C7, amended.  The slippage calculation performs no range
validation: every basis-point input flows through the formula, inputs of
10000 or more yield a non-positive minimum, and negative inputs yield a
minimum at or above the expected amount, instead of an error in either
case. -/
theorem bps_out_of_range_not_rejected :
    (∀ (e : Nat) (b : Int), 10000 ≤ b → calculateMinAmount (e : Int) b ≤ 0) ∧
    (∀ (e : Nat) (b : Int), b < 0 → (e : Int) ≤ calculateMinAmount (e : Int) b) := by
  constructor
  · intro e b hb
    unfold calculateMinAmount
    have hnum : (e : Int) * (10000 - b) ≤ 0 :=
      mul_nonpos_of_nonneg_of_nonpos (by positivity) (by omega)
    have h : (e : Int) * (10000 - b) = -((((e : Int) * (10000 - b)).natAbs : Nat) : Int) := by
      omega
    rw [h, Int.neg_tdiv]
    have h2 : Int.tdiv (((((e : Int) * (10000 - b)).natAbs : Nat)) : Int) 10000 =
        (((((e : Int) * (10000 - b)).natAbs) / 10000 : Nat) : Int) := by
      exact_mod_cast (Int.ofNat_tdiv (((e : Int) * (10000 - b)).natAbs) 10000).symm
    rw [h2]
    omega
  · intro e b hb
    unfold calculateMinAmount
    have hc : (10000 - b) = (((10000 - b).toNat : Nat) : Int) := by omega
    rw [hc]
    have hmul : (e : Int) * ((10000 - b).toNat : Int) =
        ((e * (10000 - b).toNat : Nat) : Int) := by push_cast; ring
    rw [hmul]
    have h2 : Int.tdiv ((e * (10000 - b).toNat : Nat) : Int) 10000 =
        ((e * (10000 - b).toNat / 10000 : Nat) : Int) := by
      exact_mod_cast (Int.ofNat_tdiv (e * (10000 - b).toNat) 10000).symm
    rw [h2]
    have hmono : e * 10000 ≤ e * (10000 - b).toNat :=
      Nat.mul_le_mul_left e (by omega)
    have hnat : e ≤ e * (10000 - b).toNat / 10000 :=
      (Nat.le_div_iff_mul_le (by norm_num)).mpr hmono
    exact_mod_cast hnat

/-- Claim C7, witness at 1000000 with 10001 and -100 basis points. -/
theorem bps_out_of_range_not_rejected_witness :
    (calculateMinAmount ((1000000 : Nat) : Int) 10001 ≤ 0) ∧
    (((1000000 : Nat) : Int) ≤ calculateMinAmount ((1000000 : Nat) : Int) (-100)) :=
  ⟨bps_out_of_range_not_rejected.1 1000000 10001 (by decide),
   bps_out_of_range_not_rejected.2 1000000 (-100) (by decide)⟩

/-! ## Claim C8. -/

/-- Claim C8.  In scripts 1 and 7 the native value attached to the
submitted transaction equals the quoted first-hop fee for a non-native
asset, and the fee plus the transferred amount when the underlying token
address is zero (native currency). -/
theorem txValue_native_vs_erc20 :
    (∀ (env : Env1) (u m fhm q : Nat),
      ¬ env.srcEid = env.hubEid →
      parseUnits env.amount env.assetDecimals = some u →
      minAmountOut1 env (env.previewDeposit.getD u) = some m →
      firstHopMin1 env = some fhm →
      env.outerQuote = some q →
      ∃ tx, run1 env = Except.ok tx ∧ tx.msgFeeNative = q ∧
        tx.txValue = if env.tokenAddr = 0 then q + u else q) ∧
    (∀ (env : Env7) (u m fhm q : Nat),
      parseUnits env.amount env.assetDecimals = some u →
      minAmountOut7 env (env.previewDeposit.getD u) = some m →
      firstHopMin7 env = some fhm →
      env.outerQuote = some q →
      ∃ tx, run7 env = Except.ok tx ∧ tx.msgFeeNative = q ∧
        tx.txValue = if env.tokenAddr = 0 then q + u else q) := by
  constructor
  · intro env u m fhm q hsrc hu hm hf hq
    exact ⟨_, run1_spec env u m fhm q hsrc hu hm hf hq, rfl, rfl⟩
  · intro env u m fhm q hu hm hf hq
    exact ⟨_, run7_spec env u m fhm q hu hm hf hq, rfl, rfl⟩

/-- Claim C8, witness: the erc20 case at `envC5` (value is the fee alone)
and the native case at `env7N` (value is fee plus amount). -/
theorem txValue_native_vs_erc20_witness :
    (∃ tx, run1 envC5 = Except.ok tx ∧ tx.msgFeeNative = 3 ∧
      tx.txValue = if envC5.tokenAddr = 0 then 3 + 10000 else 3) ∧
    (∃ tx, run7 env7N = Except.ok tx ∧ tx.msgFeeNative = 3 ∧
      tx.txValue = if env7N.tokenAddr = 0 then 3 + 10000 else 3) :=
  ⟨txValue_native_vs_erc20.1 envC5 10000 9950 9950 3 (by decide) rfl rfl rfl rfl,
   txValue_native_vs_erc20.2 env7N 10000 9950 9950 3 rfl rfl rfl rfl⟩

/-! ## Claim C9. -/

/-- Claim C9.  The approval step submits a transaction only when the
current allowance is strictly below the required amount.  Running the
block twice in succession, where the allowance seen by the second run is
unchanged or larger than the one left by the first, yields exactly one
approval transaction in total when the initial allowance was insufficient
and zero when it already sufficed, for both the approve-exact-amount
variant (scripts 1, 5 and 7) and the approve-MaxUint256 variant
(script 11). -/
theorem approval_idempotence :
    (∀ (amt a a2 b : Nat),
      (erc20ApprovalBlock (some true) (some a) amt).1 = some b →
      b ≤ a2 →
      (erc20ApprovalBlock (some true) (some a) amt).2 +
        (erc20ApprovalBlock (some true) (some a2) amt).2 =
        if a < amt then 1 else 0) ∧
    (∀ (amt a a2 : Nat),
      amt ≤ maxUint256 →
      (approvalBlock11 a amt).1 ≤ a2 →
      (approvalBlock11 a amt).2 + (approvalBlock11 a2 amt).2 =
        if a < amt then 1 else 0) := by
  constructor
  · intro amt a a2 b hb ha2
    by_cases h1 : a < amt
    · have hb' : b = amt := by
        simp only [erc20ApprovalBlock, if_pos h1] at hb
        exact (Option.some.inj hb).symm
      have h2 : ¬ a2 < amt := by omega
      simp [erc20ApprovalBlock, if_pos h1, if_neg h2, h1]
    · have hb' : b = a := by
        simp only [erc20ApprovalBlock, if_neg h1] at hb
        exact (Option.some.inj hb).symm
      have h2 : ¬ a2 < amt := by omega
      simp [erc20ApprovalBlock, if_neg h1, if_neg h2, h1]
  · intro amt a a2 hmax ha2
    by_cases h1 : a < amt
    · have hfst : (approvalBlock11 a amt).1 = maxUint256 := by
        simp [approvalBlock11, if_pos h1]
      rw [hfst] at ha2
      have h2 : ¬ a2 < amt := by omega
      simp [approvalBlock11, if_pos h1, if_neg h2, h1]
    · have hfst : (approvalBlock11 a amt).1 = a := by
        simp [approvalBlock11, if_neg h1]
      rw [hfst] at ha2
      have h2 : ¬ a2 < amt := by omega
      simp [approvalBlock11, if_neg h1, if_neg h2, h1]

/-- Claim C9, witness: allowance 0 against required 5 gives one approval
in two runs; allowance 7 against required 5 gives zero. -/
theorem approval_idempotence_witness :
    ((erc20ApprovalBlock (some true) (some 0) 5).2 +
      (erc20ApprovalBlock (some true) (some 5) 5).2 = if 0 < 5 then 1 else 0) ∧
    ((approvalBlock11 7 5).2 + (approvalBlock11 7 5).2 = if 7 < 5 then 1 else 0) :=
  ⟨approval_idempotence.1 5 0 5 5 rfl (by decide),
   approval_idempotence.2 5 7 7 (by decide) (by decide)⟩

/-! ## Claim C10. -/

/-- Claim C10.  In script 1, for a non-native asset, a thrown
`approvalRequired()` probe or a thrown allowance read is swallowed: no
approval transaction is submitted and the run still proceeds through
quoting to submission. -/
theorem approval_probe_failure_swallowed :
    ∀ (env : Env1) (u m fhm q : Nat),
      ¬ env.srcEid = env.hubEid →
      ¬ env.tokenAddr = 0 →
      (env.approvalRequired = none ∨
        (env.approvalRequired = some true ∧ env.allowance = none)) →
      parseUnits env.amount env.assetDecimals = some u →
      minAmountOut1 env (env.previewDeposit.getD u) = some m →
      firstHopMin1 env = some fhm →
      env.outerQuote = some q →
      ∃ tx, run1 env = Except.ok tx ∧ tx.approvalTxs = 0 := by
  intro env u m fhm q hsrc htok hdisj hu hm hf hq
  refine ⟨_, run1_spec env u m fhm q hsrc hu hm hf hq, ?_⟩
  rcases hdisj with hnone | ⟨htrue, hanone⟩
  · simp [erc20ApprovalBlock, htok, hnone]
  · simp [erc20ApprovalBlock, htok, htrue, hanone]

/-- Claim C10, witness at `envC10`, where the probe throws. -/
theorem approval_probe_failure_swallowed_witness :
    ∃ tx, run1 envC10 = Except.ok tx ∧ tx.approvalTxs = 0 :=
  approval_probe_failure_swallowed envC10 10000 9950 9950 3
    (by decide) (by decide) (Or.inl rfl) rfl rfl rfl rfl
